import Mathlib

/-!
Verification of the client-side recording-and-submission pipeline of the
AI Interview App (file `src/App.tsx`).

The embedding models:
  * the media recorder hook `useRecorder` (its `start` and `stop` operations)
    as a pure state machine over `RecorderState`,
  * the candidate view state (`clips`, `recordingQuestionId`,
    `recordingTimeLeft`, `currentQuestion`, the pending auto-stop timeout)
    with the handlers `recordAnswer`, `stopRecording`,
    `ensureRecordingStopped`, navigation and re-record,
  * the packaging step of `exportAndUpload` (per-question zip entries,
    optional merged clip, summary record) as pure functions, with the
    external ffmpeg concatenation and the zip byte serialisation supplied
    as oracle parameters,
  * the upload loop of `exportAndUpload` (3 attempts, success effects,
    verification, local-download fallback) as a fold over an oracle list of
    attempt outcomes, accumulating user-visible effects in a trace.

Media blobs are byte sequences (`List Nat`).  Each asynchronous handler is
modelled as one atomic step of the cooperative event loop.
-/

namespace AIVI

/-- A binary media blob, as a byte sequence. -/
abbrev Blob := List Nat

/-- `InterviewQuestion` from `App.tsx`. -/
structure InterviewQuestion where
  id : String
  prompt : String
  guidance : Option String := none
  required : Option Bool := none
  timeLimitSec : Option Nat := none
  keywords : Option (List String) := none
  weight : Option Nat := none
  deriving DecidableEq

/-- `InterviewTemplate` from `App.tsx`. -/
structure InterviewTemplate where
  id : String
  name : String
  company : Option String := none
  role : Option String := none
  questions : List InterviewQuestion
  deriving DecidableEq

/-- `RecordingClip` from `App.tsx`.  `blob` and `url` are absent until the
question is answered. -/
structure RecordingClip where
  qid : String
  blob : Option Blob := none
  url : Option String := none
  durationMs : Option Nat := none
  deriving DecidableEq

/-- State of the `useRecorder` hook: whether a `MediaRecorder` object is
present (`recorder` non-null), whether a recording is active, and the
accumulated data chunks (`chunksRef`). -/
structure RecorderState where
  recorder : Bool
  recording : Bool
  chunks : Blob
  deriving DecidableEq

/-- `useRecorder.start`: clears previous chunks, creates a fresh
`MediaRecorder` and starts it. -/
def recorderStart (_s : RecorderState) : RecorderState :=
  { recorder := true, recording := true, chunks := [] }

/-- `ondataavailable`: while recording, a non-empty data chunk is appended
to `chunksRef`. -/
def recorderData (chunk : Blob) (s : RecorderState) : RecorderState :=
  if s.recording ∧ chunk ≠ [] then { s with chunks := s.chunks ++ chunk } else s

/-- `useRecorder.stop` (lines 182-199): if there is no recorder object or
the recording flag is off, return `null` and change nothing; otherwise stop
the recorder, resolve with the blob built from all accumulated chunks, and
reset the recorder state. -/
def recorderStop (s : RecorderState) : Option Blob × RecorderState :=
  if s.recorder = false ∨ s.recording = false then (none, s)
  else (some s.chunks, { recorder := false, recording := false, chunks := [] })

/-- The state of `CandidateView` that the recording controller touches.
`timeoutArmed` models the pending `currentRecordingTimeout` auto-stop
timer; `endRecordingCalls` instruments how many times the recorder object
has been stopped (`currentRecorder.stop()`) since the last
`beginRecording`. -/
structure CandidateState where
  recState : RecorderState
  clips : List RecordingClip
  recordingQuestionId : Option String
  recordingTimeLeft : Nat
  currentQuestion : Nat
  timeoutArmed : Bool
  endRecordingCalls : Nat
  deriving DecidableEq

/-- Initial `CandidateView` state: one empty clip slot per template
question (`useState(template.questions.map(q => ({ qid: q.id })))`). -/
def initState (t : InterviewTemplate) : CandidateState :=
  { recState := { recorder := false, recording := false, chunks := [] },
    clips := t.questions.map (fun q => { qid := q.id }),
    recordingQuestionId := none,
    recordingTimeLeft := 0,
    currentQuestion := 0,
    timeoutArmed := false,
    endRecordingCalls := 0 }

/-- `recordAnswer` (lines 590-624): marks the question as actively
recording, resets the countdown to the question time limit (default 120),
starts the recorder and arms the auto-stop timeout.  The instrumentation
counter restarts for the new `beginRecording`. -/
def recordAnswer (q : InterviewQuestion) (s : CandidateState) : CandidateState :=
  { s with
    recordingQuestionId := some q.id,
    recordingTimeLeft := q.timeLimitSec.getD 120,
    recState := recorderStart s.recState,
    timeoutArmed := true,
    endRecordingCalls := 0 }

/-- `stopRecording` (lines 626-654): a no-op unless `questionId` is the
active recording; otherwise it clears the pending timers, stops the
recorder, clears the active-recording marker and countdown, and, when a
blob was produced, stores it (with an object URL) into the matching clip
slot. -/
def stopRecording (qid : String) (s : CandidateState) : CandidateState :=
  if s.recordingQuestionId = some qid then
    let res := recorderStop s.recState
    { s with
      timeoutArmed := false,
      recState := res.2,
      endRecordingCalls := s.endRecordingCalls + (if res.1.isSome then 1 else 0),
      recordingQuestionId := none,
      recordingTimeLeft := 0,
      clips :=
        match res.1 with
        | some b =>
            s.clips.map (fun c =>
              if c.qid = qid then { c with blob := some b, url := some "blob:local" } else c)
        | none => s.clips }
  else s

/-- `ensureRecordingStopped` (lines 584-588). -/
def ensureRecordingStopped (s : CandidateState) : CandidateState :=
  match s.recordingQuestionId with
  | some qid => stopRecording qid s
  | none => s

/-- The Previous button handler (line 1053): stop any active recording,
then move to `Math.max(0, currentQuestion - 1)`. -/
def navPrev (s : CandidateState) : CandidateState :=
  let s1 := ensureRecordingStopped s
  { s1 with currentQuestion := max 0 (s1.currentQuestion - 1) }

/-- The Next button handler (line 1061): stop any active recording, then
move to `Math.min(questions.length - 1, currentQuestion + 1)`. -/
def navNext (t : InterviewTemplate) (s : CandidateState) : CandidateState :=
  let s1 := ensureRecordingStopped s
  { s1 with currentQuestion := min (t.questions.length - 1) (s1.currentQuestion + 1) }

/-- The re-record handler (line 1038): reset the matching clip slot to a
bare `{ qid }` record. -/
def rerecord (qid : String) (s : CandidateState) : CandidateState :=
  { s with clips := s.clips.map (fun c => if c.qid = qid then { qid := c.qid } else c) }

/-- `answeredCount` (line 930): `clips.filter(c => c.blob).length`. -/
def answeredCount (clips : List RecordingClip) : Nat :=
  (clips.filter (fun c => c.blob.isSome)).length

/-- The two triggers that can end an active recording: the manual Stop
Recording button and the `autoStopTimeout` deadline timer. -/
inductive StopTrigger where
  | manual
  | deadline
  deriving DecidableEq

/-- One trigger firing: the manual stop runs `stopRecording` directly; the
deadline timer runs it only if the timeout is still armed (a cleared
timeout never fires). -/
def fireTrigger (qid : String) (e : StopTrigger) (s : CandidateState) : CandidateState :=
  match e with
  | .manual => stopRecording qid s
  | .deadline => if s.timeoutArmed then stopRecording qid s else s

/-- A whole interleaving of stop triggers, fired in order. -/
def runTriggers (qid : String) (es : List StopTrigger) (s : CandidateState) : CandidateState :=
  es.foldl (fun s e => fireTrigger qid e s) s

/-- Decimal digit character, `48 + n` is the code of the digit for
`n < 10`. -/
def decDigitChar (n : Nat) : Char := Char.ofNat (48 + n)

/-- Decimal rendering of a natural number as a character list, most
significant digit first: the embedding of the JavaScript template-literal
rendering of a non-negative integer. -/
def natToDecAux (n : Nat) : List Char :=
  if _h : n < 10 then [decDigitChar n]
  else natToDecAux (n / 10) ++ [decDigitChar (n % 10)]
termination_by n
decreasing_by exact Nat.div_lt_self (by omega) (by omega)

/-- Decimal rendering of a natural number as a string. -/
def natToDec (n : Nat) : String := ⟨natToDecAux n⟩

/-- Left inverse of `natToDecAux`: read a decimal character list back. -/
def decToNat (l : List Char) : Nat :=
  l.foldl (fun a c => 10 * a + (c.toNat - 48)) 0

/-- The character-wise sanitisation of `.replace(/[^a-zA-Z0-9]/g, '_')`:
alphanumerics are kept, every other character becomes an underscore. -/
def sanitizeChar (c : Char) : Char := if c.isAlphanum then c else '_'

/-- `q.prompt.slice(0, 30).replace(/[^a-zA-Z0-9]/g, '_')` (line 730). -/
def sanitizePrompt (p : String) : String := ⟨(p.data.take 30).map sanitizeChar⟩

/-- `.replace(/[^a-zA-Z0-9]/g, '_')` on a whole string (line 761). -/
def sanitizeAll (s : String) : String := ⟨s.data.map sanitizeChar⟩

/-- `timestamp.replace(/[:.]/g, '-')` (line 760). -/
def tsSanitize (s : String) : String :=
  ⟨s.data.map (fun c => if c = ':' ∨ c = '.' then '-' else c)⟩

/-- JavaScript `x || d` for an optional string `x`: the default is used
when the string is absent or empty. -/
def strOr (o : Option String) (d : String) : String :=
  match o with
  | some s => if s = "" then d else s
  | none => d

/-- JavaScript template-literal interpolation of a possibly-undefined
string (an absent value renders as "undefined"). -/
def jsStr (o : Option String) : String := o.getD "undefined"

/-- The per-question archive entry name (line 730):
`Q${i+1}_${prompt.slice(0,30).replace(/[^a-zA-Z0-9]/g,'_')}.webm` with
`i` the 0-based question index. -/
def questionFileName (i : Nat) (q : InterviewQuestion) : String :=
  "Q" ++ natToDec (i + 1) ++ "_" ++ sanitizePrompt q.prompt ++ ".webm"

/-- The merged-clip archive entry name (line 736):
`ALL_${company||'company'}_${role||'role'}.webm`. -/
def mergedFileName (t : InterviewTemplate) : String :=
  "ALL_" ++ strOr t.company "company" ++ "_" ++ strOr t.role "role" ++ ".webm"

/-- The archive file name (lines 760-762). -/
def archiveFileName (t : InterviewTemplate) (candidateName timestamp : String) : String :=
  (if candidateName = "" then "" else sanitizeAll candidateName ++ "_")
    ++ strOr t.company "company" ++ "_" ++ strOr t.role "role"
    ++ "_interview_" ++ tsSanitize timestamp ++ ".zip"

/-- `clips.find(c => c.qid === q.id)`. -/
def findClip (clips : List RecordingClip) (qid : String) : Option RecordingClip :=
  clips.find? (fun c => c.qid = qid)

/-- `videoClips` (lines 666-667): the answered questions in template
order, each paired with its clip (`recorded.filter(rc => rc.clip?.blob)`). -/
def videoClips (t : InterviewTemplate) (clips : List RecordingClip) :
    List (InterviewQuestion × RecordingClip) :=
  (t.questions.map (fun q => (q, findClip clips q.id))).filterMap
    (fun p =>
      match p.2 with
      | some c => if c.blob.isSome then some (p.1, c) else none
      | none => none)

/-- The merged blob after the merge step of `exportAndUpload`
(lines 664-725).  `ffmpegResult` is the outcome of the external
ffmpeg.wasm concatenation: `some` bytes when `ffmpeg.exec` produced an
output, `none` when the merge threw (the `catch` branch).  With one
answered question the single clip is used directly
(`videoClips[0].clip?.blob || null`); with none the merged blob stays
null. -/
def mergedBlob (t : InterviewTemplate) (clips : List RecordingClip)
    (ffmpegResult : Option Blob) : Option Blob :=
  let vc := videoClips t clips
  if 1 < vc.length then ffmpegResult
  else if vc.length = 1 then vc.head?.bind (fun p => p.2.blob)
  else none

/-- Content of one archive entry: raw media bytes or the structured
summary record. -/
inductive ZipContent where
  | bytes (b : Blob)
  | summary (candidate : String) (templateName : String)
      (company role : Option String) (timestamp : String)
      (totalQuestions answeredQuestions : Nat)
      (questions : List (Nat × String × Option Nat × Bool × Nat))
  deriving DecidableEq

/-- One named entry of the produced zip archive. -/
structure ZipEntry where
  name : String
  content : ZipContent
  deriving DecidableEq

/-- The per-question archive entries (lines 727-733): one entry per
answered question, named by `questionFileName`, holding the clip bytes. -/
def perQuestionEntries (t : InterviewTemplate) (clips : List RecordingClip) :
    List ZipEntry :=
  t.questions.enum.filterMap (fun p =>
    match (findClip clips p.2.id).bind (fun c => c.blob) with
    | some b => some ⟨questionFileName p.1 p.2, ZipContent.bytes b⟩
    | none => none)

/-- The `interview_summary.json` record (lines 741-756): candidate name
(or "Anonymous"), template identity, timestamp, totals and per-question
detail `(number, prompt, timeLimitSec, hasAnswer, answerDuration)`. -/
def buildSummary (t : InterviewTemplate) (clips : List RecordingClip)
    (candidateName timestamp : String) : ZipContent :=
  ZipContent.summary
    (if candidateName = "" then "Anonymous" else candidateName)
    t.name t.company t.role timestamp
    t.questions.length (answeredCount clips)
    (t.questions.enum.map (fun p =>
      (p.1 + 1, p.2.prompt, p.2.timeLimitSec,
        ((findClip clips p.2.id).bind (fun c => c.blob)).isSome,
        ((findClip clips p.2.id).bind (fun c => c.durationMs)).getD 0)))

/-- The full archive contents of `exportAndUpload` (lines 727-757), in
insertion order: per-question clips, then the optional merged clip, then
the summary record. -/
def buildArchive (t : InterviewTemplate) (clips : List RecordingClip)
    (candidateName : String) (ffmpegResult : Option Blob) (timestamp : String) :
    List ZipEntry :=
  perQuestionEntries t clips
    ++ (match mergedBlob t clips ffmpegResult with
        | some b => [⟨mergedFileName t, ZipContent.bytes b⟩]
        | none => [])
    ++ [⟨"interview_summary.json", buildSummary t clips candidateName timestamp⟩]

/-- The metadata interpolated into the user-visible messages of the
upload phase. -/
structure SubmissionInfo where
  fileName : String
  candidate : String
  company : Option String
  role : Option String
  answered : Nat
  total : Nat
  deriving DecidableEq

/-- The candidate/position/answered block shared verbatim by the three
alert texts of `exportAndUpload`. -/
def candidateDetails (m : SubmissionInfo) : String :=
  "Candidate: " ++ m.candidate ++ "\nPosition: " ++ jsStr m.role ++ " at "
    ++ jsStr m.company ++ "\nAnswered: " ++ natToDec m.answered ++ "/"
    ++ natToDec m.total ++ " questions"

/-- The manual-recovery instruction of the failure alert (line 917). -/
def manualRecoveryInstruction : String :=
  "PLEASE EMAIL THIS FILE IMMEDIATELY TO:\nsrn@synapserecruiternetwork.com"

/-- The alert shown when all upload attempts failed (line 917). -/
def failureAlertText (m : SubmissionInfo) (errText : String) : String :=
  "⚠️ UPLOAD FAILED BUT FILE SAVED!\n\nFile downloaded: " ++ m.fileName
    ++ "\n\n🚨 CRITICAL: " ++ manualRecoveryInstruction ++ "\n\n"
    ++ candidateDetails m ++ "\n\nTechnical Error: " ++ errText

/-- The alert shown for a (confirmed or unverifiable) successful upload
(lines 854, 860, 864). -/
def completedAlertText (m : SubmissionInfo) : String :=
  "✅ INTERVIEW COMPLETED!\n\nFile uploaded to admin submissions and downloaded locally: "
    ++ m.fileName ++ "\n\n" ++ candidateDetails m
    ++ "\n\n📧 Admin has been notified at srn@synapserecruiternetwork.com"

/-- The alert shown when the post-upload verification cannot find the
file (line 857). -/
def verifyWarnAlertText (m : SubmissionInfo) : String :=
  "⚠️ UPLOAD MAY HAVE FAILED!\n\nFile downloaded locally: " ++ m.fileName
    ++ "\n\n🚨 PLEASE EMAIL THIS FILE TO:\nsrn@synapserecruiternetwork.com\n\n"
    ++ candidateDetails m

/-- `hay` contains `needle` as a contiguous substring. -/
def strContains (hay needle : String) : Prop :=
  ∃ a b : String, hay = a ++ needle ++ b

/-- Outcome of one iteration of the upload loop (lines 773-891): the POST
returned 2xx and its JSON body parsed, or it returned a non-2xx status,
or the attempt threw (network error, body-parse error). -/
inductive AttemptOutcome where
  | ok (url : String)
  | httpError (status : Nat) (statusText : String)
  | thrown (msg : String)
  deriving DecidableEq

/-- Whether the attempt reached the success branch. -/
def AttemptOutcome.isOk : AttemptOutcome → Bool
  | .ok _ => true
  | _ => false

/-- The error recorded in `lastError` for a failed attempt: line 874
builds `Upload failed: ${status} ${statusText}` for a non-2xx response;
a thrown error is stored as caught. -/
def attemptErrorMsg : AttemptOutcome → Option String
  | .ok _ => none
  | .httpError status statusText =>
      some ("Upload failed: " ++ natToDec status ++ " " ++ statusText)
  | .thrown msg => some msg

/-- `String(lastError)` as interpolated into the failure alert; a null
error renders as "null". -/
def jsErrorText (o : Option String) : String := o.getD "null"

/-- Outcome of the best-effort verification step (lines 847-865). -/
inductive VerifyOutcome where
  | found
  | notFound
  | listNotOk
  | threw
  deriving DecidableEq

/-- The user-visible effects accumulated by a run of the submission
phase: `setDriveStatus` messages, the bytes POSTed by each upload
attempt, the local downloads triggered, the alerts shown, and the
`uploadSuccess` / `lastError` variables of the loop. -/
structure PipelineTrace where
  statusLog : List String
  uploadAttempts : List (String × Blob)
  downloads : List (String × Blob)
  alerts : List String
  uploadSuccess : Bool
  lastError : Option String
  notified : Bool
  deriving DecidableEq

/-- The success branch of an upload attempt (lines 808-866): set
`uploadSuccess`, show the success status, fire the notification (its
failure is swallowed), trigger the local download of the archive bytes,
then alert according to the verification outcome, and leave the loop. -/
def successEffects (m : SubmissionInfo) (archive : Blob) (notifyOk : Bool)
    (v : VerifyOutcome) (tr : PipelineTrace) : PipelineTrace :=
  let tr1 := { tr with
    uploadSuccess := true,
    statusLog := tr.statusLog ++ ["✅ Interview submitted successfully!"],
    notified := notifyOk,
    downloads := tr.downloads ++ [(m.fileName, archive)] }
  match v with
  | .found => { tr1 with alerts := tr1.alerts ++ [completedAlertText m] }
  | .notFound => { tr1 with alerts := tr1.alerts ++ [verifyWarnAlertText m] }
  | .listNotOk => { tr1 with alerts := tr1.alerts ++ [completedAlertText m] }
  | .threw => { tr1 with alerts := tr1.alerts ++ [completedAlertText m] }

/-- The upload loop body (lines 773-891): each iteration POSTs the
archive bytes; a success runs `successEffects` and leaves the loop; a
failure records `lastError` and retries with the next attempt. -/
def runAttempts (m : SubmissionInfo) (archive : Blob) (notifyOk : Bool)
    (v : VerifyOutcome) : List AttemptOutcome → PipelineTrace → PipelineTrace
  | [], tr => tr
  | o :: rest, tr =>
    let tr1 := { tr with uploadAttempts := tr.uploadAttempts ++ [(m.fileName, archive)] }
    match o with
    | .ok _ => successEffects m archive notifyOk v tr1
    | e => runAttempts m archive notifyOk v rest { tr1 with lastError := attemptErrorMsg e }

/-- The whole upload phase (lines 770-918): at most 3 attempts, then, if
none succeeded, the fallback — failure status, forced local download of
the same archive bytes, failure status again, and the failure alert with
manual-recovery instructions and the last technical error. -/
def uploadPhase (m : SubmissionInfo) (archive : Blob)
    (outcomes : List AttemptOutcome) (notifyOk : Bool) (v : VerifyOutcome)
    (tr : PipelineTrace) : PipelineTrace :=
  let tr1 := runAttempts m archive notifyOk v (outcomes.take 3) tr
  if tr1.uploadSuccess then tr1
  else
    { tr1 with
      statusLog := (tr1.statusLog
          ++ ["⚠️ Cloud storage failed - File downloaded locally"])
          ++ ["⚠️ Upload failed - File downloaded locally"],
      downloads := tr1.downloads ++ [(m.fileName, archive)],
      alerts := tr1.alerts ++ [failureAlertText m (jsErrorText tr1.lastError)] }

/-- The inputs of one `exportAndUpload` run.  External effects are
supplied as oracles: the ffmpeg.wasm concatenation result, the zip byte
serialisation, the wall-clock timestamp, the outcome of each upload
attempt, of the notification call, and of the verification. -/
structure ExportInputs where
  template : InterviewTemplate
  clips : List RecordingClip
  candidateName : String
  ffmpegResult : Option Blob
  zipBytes : Blob
  timestamp : String
  outcomes : List AttemptOutcome
  notifyOk : Bool
  verify : VerifyOutcome

/-- The metadata block sent with the upload and interpolated into the
alerts (lines 788-796, 854, 857, 917). -/
def submissionInfoOf (inp : ExportInputs) : SubmissionInfo :=
  { fileName := archiveFileName inp.template inp.candidateName inp.timestamp,
    candidate := if inp.candidateName = "" then "Anonymous" else inp.candidateName,
    company := inp.template.company,
    role := inp.template.role,
    answered := answeredCount inp.clips,
    total := inp.template.questions.length }

/-- One full run of `exportAndUpload` (lines 656-926) after the active
recording has been settled: the merge step (status messages depend on the
number of answered clips and the ffmpeg outcome), the archive build, and
the upload phase.  Returns the archive contents and the effect trace. -/
def exportAndUpload (inp : ExportInputs) : List ZipEntry × PipelineTrace :=
  let vc := videoClips inp.template inp.clips
  let mergeStatuses : List String :=
    if 1 < vc.length then
      match inp.ffmpegResult with
      | some _ => ["Merging videos...", "Videos merged successfully!"]
      | none => ["Merging videos...", "Video merge failed, packaging individual files..."]
    else []
  let archive := buildArchive inp.template inp.clips inp.candidateName
      inp.ffmpegResult inp.timestamp
  let tr0 : PipelineTrace :=
    { statusLog := (["Preparing export..."] ++ mergeStatuses) ++ ["Submitting interview..."],
      uploadAttempts := [],
      downloads := [],
      alerts := [],
      uploadSuccess := false,
      lastError := none,
      notified := false }
  (archive,
    uploadPhase (submissionInfoOf inp) inp.zipBytes inp.outcomes inp.notifyOk inp.verify tr0)

/-- States of the candidate view reachable from the initial state by the
operations of the view. -/
inductive Reachable (t : InterviewTemplate) : CandidateState → Prop where
  | init : Reachable t (initState t)
  | record (q : InterviewQuestion) {s : CandidateState} :
      q ∈ t.questions → Reachable t s → Reachable t (recordAnswer q s)
  | dataChunk (b : Blob) {s : CandidateState} :
      Reachable t s → Reachable t { s with recState := recorderData b s.recState }
  | stop (qid : String) {s : CandidateState} :
      Reachable t s → Reachable t (stopRecording qid s)
  | deadline (qid : String) {s : CandidateState} :
      Reachable t s → Reachable t (fireTrigger qid .deadline s)
  | redo (qid : String) {s : CandidateState} :
      Reachable t s → Reachable t (rerecord qid s)
  | prev {s : CandidateState} : Reachable t s → Reachable t (navPrev s)
  | next {s : CandidateState} : Reachable t s → Reachable t (navNext t s)

/-- Example question 1 for concrete witnesses. -/
def qEx1 : InterviewQuestion :=
  { id := "q1", prompt := "Tell us about yourself", timeLimitSec := some 60 }

/-- Example question 2 for concrete witnesses. -/
def qEx2 : InterviewQuestion :=
  { id := "q2", prompt := "Why this role", timeLimitSec := some 30 }

/-- Example template for concrete witnesses. -/
def tEx : InterviewTemplate :=
  { id := "t1", name := "Demo", company := some "Acme", role := some "Eng",
    questions := [qEx1, qEx2] }

/-- Clip slots with no answered question. -/
def clipsNoneEx : List RecordingClip := [{ qid := "q1" }, { qid := "q2" }]

/-- Clip slots with exactly question 1 answered. -/
def clipsOneEx : List RecordingClip :=
  [{ qid := "q1", blob := some [1, 2, 3], url := some "blob:local" }, { qid := "q2" }]

/-- Clip slots with both questions answered. -/
def clipsBothEx : List RecordingClip :=
  [{ qid := "q1", blob := some [1, 2, 3], url := some "blob:local" },
   { qid := "q2", blob := some [4, 5], url := some "blob:local" }]

/-- A candidate state actively recording question 1. -/
def sRecEx : CandidateState :=
  { recState := { recorder := true, recording := true, chunks := [7, 8] },
    clips := clipsNoneEx,
    recordingQuestionId := some "q1",
    recordingTimeLeft := 10,
    currentQuestion := 0,
    timeoutArmed := true,
    endRecordingCalls := 0 }

/-- Export inputs whose three upload attempts all fail. -/
def inpFailEx : ExportInputs :=
  { template := tEx, clips := clipsOneEx, candidateName := "Jo",
    ffmpegResult := none, zipBytes := [9, 9],
    timestamp := "2024-01-01T00:00:00.000Z",
    outcomes := [.httpError 500 "Server Error", .thrown "network down",
      .httpError 503 "Unavailable"],
    notifyOk := false, verify := .found }

/-- Export inputs with both questions answered and a failed merge. -/
def inpMergeFailEx : ExportInputs :=
  { template := tEx, clips := clipsBothEx, candidateName := "Jo",
    ffmpegResult := none, zipBytes := [9, 9],
    timestamp := "2024-01-01T00:00:00.000Z",
    outcomes := [.ok "u", .ok "u", .ok "u"],
    notifyOk := true, verify := .found }

/-- Export inputs whose first upload attempt succeeds. -/
def inpOkEx : ExportInputs :=
  { template := tEx, clips := clipsOneEx, candidateName := "Jo",
    ffmpegResult := none, zipBytes := [9, 9],
    timestamp := "2024-01-01T00:00:00.000Z",
    outcomes := [.ok "u", .httpError 500 "Server Error", .thrown "down"],
    notifyOk := true, verify := .notFound }

/-- C7: calling the recorder's stop with no recorder object or with the
recording flag off is a no-op returning `none`; a second stop after a
completed stop is such a no-op; and a stop of an inactive recorder never
modifies the clip state. -/
theorem useRecorder_stop_idempotent (s : RecorderState) :
    (s.recorder = false ∨ s.recording = false → recorderStop s = (none, s)) ∧
    recorderStop (recorderStop s).2 = (none, (recorderStop s).2) ∧
    (∀ (cs : CandidateState) (qid : String), cs.recState = s →
      s.recorder = false ∨ s.recording = false →
      (stopRecording qid cs).clips = cs.clips) := by
  refine ⟨fun h => ?_, ?_, fun cs qid hcs h => ?_⟩
  · unfold recorderStop
    rw [if_pos h]
  · by_cases h : s.recorder = false ∨ s.recording = false
    · simp only [recorderStop, if_pos h]
    · simp only [recorderStop, if_neg h]
      simp
  · unfold stopRecording
    by_cases hg : cs.recordingQuestionId = some qid
    · rw [if_pos hg]
      have : recorderStop cs.recState = (none, cs.recState) := by
        unfold recorderStop
        rw [if_pos (hcs ▸ h)]
      simp [this]
    · rw [if_neg hg]

/-- Witness for C7 at a concrete recorder state. -/
theorem useRecorder_stop_idempotent_witness :
    recorderStop { recorder := true, recording := false, chunks := [5] } =
      (none, { recorder := true, recording := false, chunks := [5] }) ∧
    (stopRecording "q1"
        { recState := { recorder := true, recording := false, chunks := [5] },
          clips := clipsNoneEx, recordingQuestionId := some "q1",
          recordingTimeLeft := 3, currentQuestion := 0, timeoutArmed := true,
          endRecordingCalls := 0 }).clips = clipsNoneEx := by
  constructor
  · exact (useRecorder_stop_idempotent
      { recorder := true, recording := false, chunks := [5] }).1 (Or.inr rfl)
  · exact (useRecorder_stop_idempotent
      { recorder := true, recording := false, chunks := [5] }).2.2
      { recState := { recorder := true, recording := false, chunks := [5] },
        clips := clipsNoneEx, recordingQuestionId := some "q1",
        recordingTimeLeft := 3, currentQuestion := 0, timeoutArmed := true,
        endRecordingCalls := 0 } "q1" rfl (Or.inr rfl)

/-- Helper: one `stopRecording` step preserves the per-session counter
invariant. -/
theorem stopRecording_calls_inv (qid : String) (s : CandidateState)
    (h1 : s.recordingQuestionId = some qid → s.endRecordingCalls = 0)
    (h2 : s.endRecordingCalls ≤ 1) :
    ((stopRecording qid s).recordingQuestionId = some qid →
      (stopRecording qid s).endRecordingCalls = 0) ∧
    (stopRecording qid s).endRecordingCalls ≤ 1 := by
  by_cases hg : s.recordingQuestionId = some qid
  · unfold stopRecording
    rw [if_pos hg]
    refine ⟨fun hcontra => by simp at hcontra, ?_⟩
    have h0 := h1 hg
    simp only [h0]
    split <;> omega
  · unfold stopRecording
    rw [if_neg hg]
    exact ⟨h1, h2⟩

/-- Helper: one trigger firing preserves the per-session counter
invariant. -/
theorem fireTrigger_calls_inv (qid : String) (e : StopTrigger) (s : CandidateState)
    (h1 : s.recordingQuestionId = some qid → s.endRecordingCalls = 0)
    (h2 : s.endRecordingCalls ≤ 1) :
    ((fireTrigger qid e s).recordingQuestionId = some qid →
      (fireTrigger qid e s).endRecordingCalls = 0) ∧
    (fireTrigger qid e s).endRecordingCalls ≤ 1 := by
  cases e
  · exact stopRecording_calls_inv qid s h1 h2
  · unfold fireTrigger
    by_cases ht : s.timeoutArmed = true
    · rw [if_pos ht]
      exact stopRecording_calls_inv qid s h1 h2
    · rw [if_neg ht]
      exact ⟨h1, h2⟩

/-- C2: for every recording session and every interleaving of manual-stop
and deadline-timer triggers, the recorder is stopped (`endRecording`) at
most once per `beginRecording`: whichever trigger wins clears the pending
timer and the active-recording marker, so the loser is a no-op. -/
theorem endRecording_at_most_once (q : InterviewQuestion) (s : CandidateState)
    (es : List StopTrigger) :
    (runTriggers q.id es (recordAnswer q s)).endRecordingCalls ≤ 1 := by
  suffices h : ∀ (es : List StopTrigger) (s' : CandidateState),
      (s'.recordingQuestionId = some q.id → s'.endRecordingCalls = 0) →
      s'.endRecordingCalls ≤ 1 →
      ((runTriggers q.id es s').recordingQuestionId = some q.id →
        (runTriggers q.id es s').endRecordingCalls = 0) ∧
      (runTriggers q.id es s').endRecordingCalls ≤ 1 by
    exact (h es (recordAnswer q s) (fun _ => rfl) (by simp [recordAnswer])).2
  intro es
  induction es with
  | nil => intro s' h1 h2; exact ⟨h1, h2⟩
  | cons e tail ih =>
      intro s' h1 h2
      have hstep := fireTrigger_calls_inv q.id e s' h1 h2
      simpa [runTriggers, List.foldl_cons] using ih (fireTrigger q.id e s') hstep.1 hstep.2

/-- C3: a navigation action (Previous or Next) issued while question `a`
is recording stops the recording, stores the result in the clip slot of
`a` (and only there), clears the active-recording marker, and only then
changes the current-question index. -/
theorem navigation_forces_stop (t : InterviewTemplate) (s : CandidateState)
    (a : String) (hq : s.recordingQuestionId = some a)
    (hr : s.recState.recorder = true) (hg : s.recState.recording = true) :
    (navNext t s).recordingQuestionId = none ∧
    (navPrev s).recordingQuestionId = none ∧
    (navNext t s).clips = (stopRecording a s).clips ∧
    (navPrev s).clips = (stopRecording a s).clips ∧
    (∀ c ∈ (navNext t s).clips, c.qid = a → c.blob = some s.recState.chunks) ∧
    (∀ c ∈ s.clips, c.qid ≠ a → c ∈ (navNext t s).clips) ∧
    (navNext t s).currentQuestion = min (t.questions.length - 1) (s.currentQuestion + 1) ∧
    (navPrev s).currentQuestion = max 0 (s.currentQuestion - 1) := by
  have hstop : recorderStop s.recState =
      (some s.recState.chunks, { recorder := false, recording := false, chunks := [] }) := by
    unfold recorderStop
    rw [if_neg (by simp [hr, hg])]
  have hclips : (stopRecording a s).clips =
      s.clips.map (fun c =>
        if c.qid = a then { c with blob := some s.recState.chunks, url := some "blob:local" }
        else c) := by
    unfold stopRecording
    rw [if_pos hq]
    simp [hstop]
  have hnone : (stopRecording a s).recordingQuestionId = none := by
    unfold stopRecording
    rw [if_pos hq]
  have hcur : (stopRecording a s).currentQuestion = s.currentQuestion := by
    unfold stopRecording
    rw [if_pos hq]
  refine ⟨?_, ?_, ?_, ?_, ?_, ?_, ?_, ?_⟩
  · simp [navNext, ensureRecordingStopped, hq, hnone]
  · simp [navPrev, ensureRecordingStopped, hq, hnone]
  · simp [navNext, ensureRecordingStopped, hq]
  · simp [navPrev, ensureRecordingStopped, hq]
  · intro c hc hca
    rw [show (navNext t s).clips = (stopRecording a s).clips by
      simp [navNext, ensureRecordingStopped, hq], hclips] at hc
    obtain ⟨c0, _hc0, rfl⟩ := List.mem_map.mp hc
    by_cases h0 : c0.qid = a
    · simp [h0]
    · simp [h0] at hca

  · intro c hc hca
    rw [show (navNext t s).clips = (stopRecording a s).clips by
      simp [navNext, ensureRecordingStopped, hq], hclips]
    exact List.mem_map.mpr ⟨c, hc, by simp [hca]⟩
  · simp [navNext, ensureRecordingStopped, hq, hcur]
  · simp [navPrev, ensureRecordingStopped, hq, hcur]

/-- Witness for C3 at a concrete recording state. -/
theorem navigation_forces_stop_witness :
    (navNext tEx sRecEx).recordingQuestionId = none ∧
    (navPrev sRecEx).recordingQuestionId = none ∧
    (navNext tEx sRecEx).clips = (stopRecording "q1" sRecEx).clips ∧
    (navPrev sRecEx).clips = (stopRecording "q1" sRecEx).clips ∧
    (∀ c ∈ (navNext tEx sRecEx).clips, c.qid = "q1" →
      c.blob = some sRecEx.recState.chunks) ∧
    (∀ c ∈ sRecEx.clips, c.qid ≠ "q1" → c ∈ (navNext tEx sRecEx).clips) ∧
    (navNext tEx sRecEx).currentQuestion =
      min (tEx.questions.length - 1) (sRecEx.currentQuestion + 1) ∧
    (navPrev sRecEx).currentQuestion = max 0 (sRecEx.currentQuestion - 1) :=
  navigation_forces_stop tEx sRecEx "q1" rfl rfl rfl

/-- Helper: mapping a qid-preserving function over clip slots keeps the
qid sequence. -/
theorem map_qid_of_preserve (f : RecordingClip → RecordingClip)
    (hf : ∀ c, (f c).qid = c.qid) :
    ∀ l : List RecordingClip,
      (l.map f).map (fun c => c.qid) = l.map (fun c => c.qid) := by
  intro l
  induction l with
  | nil => rfl
  | cons c tl ih => simp [hf, ih]

/-- Helper: a filter keeps the whole list length exactly when every
element satisfies the predicate. -/
theorem length_filter_eq_iff {α : Type} (p : α → Bool) (l : List α) :
    (l.filter p).length = l.length ↔ ∀ a ∈ l, p a = true := by
  constructor
  · intro h a ha
    have hfe : l.filter p = l := (List.filter_sublist l).eq_of_length h
    exact List.filter_eq_self.mp hfe a ha
  · intro h
    rw [List.filter_eq_self.mpr h]

/-- Helper: `stopRecording` keeps the qid sequence of the clip slots. -/
theorem stopRecording_map_qid (qid : String) (s : CandidateState) :
    (stopRecording qid s).clips.map (fun c => c.qid) =
      s.clips.map (fun c => c.qid) := by
  unfold stopRecording
  by_cases hg : s.recordingQuestionId = some qid
  · rw [if_pos hg]
    cases hres : (recorderStop s.recState).1 with
    | none => simp [hres]
    | some b =>
        simp only [hres]
        exact map_qid_of_preserve _
          (fun c => by by_cases h : c.qid = qid <;> simp [h]) _
  · rw [if_neg hg]

/-- Helper: `ensureRecordingStopped` keeps the qid sequence of the clip
slots. -/
theorem ensureRecordingStopped_map_qid (s : CandidateState) :
    (ensureRecordingStopped s).clips.map (fun c => c.qid) =
      s.clips.map (fun c => c.qid) := by
  unfold ensureRecordingStopped
  cases hq : s.recordingQuestionId with
  | none => rfl
  | some qid => exact stopRecording_map_qid qid s

/-- Helper: every reachable candidate state keeps one clip slot per
template question, with matching qid, in template order. -/
theorem reachable_clips_qids (t : InterviewTemplate) (s : CandidateState)
    (h : Reachable t s) :
    s.clips.map (fun c => c.qid) = t.questions.map (fun q => q.id) := by
  induction h with
  | init => simp [initState, List.map_map]
  | record q hq _ ih => simpa [recordAnswer] using ih
  | dataChunk b _ ih => simpa using ih
  | stop qid _ ih => rw [stopRecording_map_qid]; exact ih
  | deadline qid _ ih =>
      rename_i s' _
      unfold fireTrigger
      by_cases ht : s'.timeoutArmed = true
      · rw [if_pos ht, stopRecording_map_qid]; exact ih
      · rw [if_neg ht]; exact ih
  | redo qid _ ih =>
      unfold rerecord
      rw [map_qid_of_preserve _
        (fun c => by by_cases h : c.qid = qid <;> simp [h])]
      exact ih
  | prev _ ih =>
      unfold navPrev
      rw [ensureRecordingStopped_map_qid]
      exact ih
  | next _ ih =>
      unfold navNext
      rw [ensureRecordingStopped_map_qid]
      exact ih

/-- C9: in every reachable candidate-view state the clips collection has
exactly one entry per template question, with matching question id, in
template question order; and the answered count equals the question count
exactly when every slot is populated. -/
theorem candidate_clips_invariant (t : InterviewTemplate) (s : CandidateState)
    (h : Reachable t s) :
    s.clips.map (fun c => c.qid) = t.questions.map (fun q => q.id) ∧
    (answeredCount s.clips = t.questions.length ↔
      ∀ c ∈ s.clips, c.blob.isSome = true) := by
  have hq := reachable_clips_qids t s h
  refine ⟨hq, ?_⟩
  have hlen : s.clips.length = t.questions.length := by
    have := congrArg List.length hq
    simpa using this
  rw [answeredCount, ← hlen]
  exact length_filter_eq_iff _ _

/-- Witness for C9 at the initial state of a concrete template. -/
theorem candidate_clips_invariant_witness :
    (initState tEx).clips.map (fun c => c.qid) =
      tEx.questions.map (fun q => q.id) ∧
    (answeredCount (initState tEx).clips = tEx.questions.length ↔
      ∀ c ∈ (initState tEx).clips, c.blob.isSome = true) :=
  candidate_clips_invariant tEx (initState tEx) Reachable.init

/-- C4: with exactly one answered question the merged output is that
clip itself, byte for byte, and the archive carries it under the merged
entry name. -/
theorem single_clip_merged_identical (t : InterviewTemplate)
    (clips : List RecordingClip) (f : Option Blob) (name ts : String)
    (q : InterviewQuestion) (c : RecordingClip) (b : Blob)
    (hvc : videoClips t clips = [(q, c)]) (hb : c.blob = some b) :
    mergedBlob t clips f = some b ∧
    ZipEntry.mk (mergedFileName t) (ZipContent.bytes b) ∈
      buildArchive t clips name f ts := by
  have hm : mergedBlob t clips f = some b := by
    unfold mergedBlob
    rw [hvc]
    simp [hb]
  refine ⟨hm, ?_⟩
  unfold buildArchive
  rw [hm]
  simp

/-- Witness for C4 at a concrete single-answer state. -/
theorem single_clip_merged_identical_witness :
    mergedBlob tEx clipsOneEx none = some [1, 2, 3] ∧
    ZipEntry.mk (mergedFileName tEx) (ZipContent.bytes [1, 2, 3]) ∈
      buildArchive tEx clipsOneEx "Jo" none "2024" :=
  single_clip_merged_identical tEx clipsOneEx none "Jo" "2024" qEx1
    { qid := "q1", blob := some [1, 2, 3], url := some "blob:local" } [1, 2, 3]
    (by decide) rfl

/-- Helper: with no answered clip, every per-question lookup is empty. -/
theorem findClip_blob_none (clips : List RecordingClip)
    (h : ∀ c ∈ clips, c.blob.isSome = false) (qid : String) :
    (findClip clips qid).bind (fun c => c.blob) = none := by
  unfold findClip
  cases hf : clips.find? (fun c => c.qid = qid) with
  | none => rfl
  | some c =>
      have hc : c ∈ clips := List.mem_of_find?_eq_some hf
      have hb := h c hc
      cases hcb : c.blob with
      | none => simp [hcb]
      | some b => rw [hcb] at hb; simp at hb

/-- C6: packaging with zero answered questions produces an archive whose
only entry is the summary record — no merged file and no per-question
clip entries. -/
theorem zero_answered_summary_only (t : InterviewTemplate)
    (clips : List RecordingClip) (name : String) (f : Option Blob) (ts : String)
    (h : answeredCount clips = 0) :
    buildArchive t clips name f ts =
      [⟨"interview_summary.json", buildSummary t clips name ts⟩] := by
  have hnone : ∀ c ∈ clips, c.blob.isSome = false := by
    intro c hc
    have hfe : clips.filter (fun c => c.blob.isSome) = [] :=
      List.length_eq_zero.mp h
    have := List.filter_eq_nil_iff.mp hfe c hc
    simpa using this
  have hper : perQuestionEntries t clips = [] := by
    unfold perQuestionEntries
    refine List.filterMap_eq_nil_iff.mpr (fun p _ => ?_)
    rw [findClip_blob_none clips hnone p.2.id]
  have hvc : videoClips t clips = [] := by
    unfold videoClips
    refine List.filterMap_eq_nil_iff.mpr (fun p hp => ?_)
    obtain ⟨q, _, rfl⟩ := List.mem_map.mp hp
    cases hf : findClip clips q.id with
    | none => rfl
    | some c =>
        have hc : c ∈ clips := List.mem_of_find?_eq_some hf
        simp [hnone c hc]
  have hm : mergedBlob t clips f = none := by
    unfold mergedBlob
    rw [hvc]
    simp
  unfold buildArchive
  rw [hper, hm]
  simp

/-- Witness for C6 at a concrete no-answer state. -/
theorem zero_answered_summary_only_witness :
    buildArchive tEx clipsNoneEx "Jo" none "2024" =
      [⟨"interview_summary.json", buildSummary tEx clipsNoneEx "Jo" "2024"⟩] :=
  zero_answered_summary_only tEx clipsNoneEx "Jo" none "2024" rfl

/-- Helper: the code of a decimal digit character. -/
theorem decDigitChar_toNat (n : Nat) (h : n < 10) :
    (decDigitChar n).toNat = 48 + n := by
  interval_cases n <;> decide

/-- Helper: `decToNat` is a left inverse of the decimal rendering. -/
theorem decToNat_natToDecAux (n : Nat) : decToNat (natToDecAux n) = n := by
  induction n using Nat.strong_induction_on with
  | _ n ih =>
    rw [natToDecAux]
    split
    · next h =>
        simp [decToNat, List.foldl, decDigitChar_toNat n h]
    · next h =>
        have hlt : n / 10 < n := Nat.div_lt_self (by omega) (by omega)
        have ihh := ih (n / 10) hlt
        have hd : (decDigitChar (n % 10)).toNat = 48 + n % 10 :=
          decDigitChar_toNat _ (Nat.mod_lt _ (by omega))
        unfold decToNat
        rw [List.foldl_append]
        show List.foldl _ (decToNat (natToDecAux (n / 10))) _ = n
        rw [ihh]
        simp [List.foldl, hd]
        omega

/-- Helper: the decimal rendering of natural numbers is injective, so
distinct 1-based question indices yield distinct index components. -/
theorem natToDec_injective : Function.Injective natToDec := by
  intro m n h
  have hdata : natToDecAux m = natToDecAux n := congrArg String.data h
  have hnat := congrArg decToNat hdata
  rwa [decToNat_natToDecAux, decToNat_natToDecAux] at hnat

/-- C5 counterexample: for the prompt "a b" the prompt-derived filename
component is "a_b", which contains an underscore, so the per-question
entry name is not built from an alphanumeric-only prefix as the claim
states. -/
theorem question_filename_not_alphanumeric_only :
    questionFileName 0 { id := "q1", prompt := "a b" } = "Q1_a_b.webm" ∧
    sanitizePrompt "a b" = "a_b" ∧
    ("a_b".data.all Char.isAlphanum) = false := by
  have h1 : natToDec 1 = "1" := by
    unfold natToDec
    rw [natToDecAux, dif_pos (show (1 : Nat) < 10 by omega)]
    decide
  refine ⟨?_, by decide, by decide⟩
  unfold questionFileName
  rw [h1]
  decide

/-- C5 amended: the per-question entry name is deterministic —
`Q(i+1)_` followed by the first at most 30 characters of the prompt with
every non-alphanumeric character replaced by an underscore (so the prefix
consists of alphanumerics and underscores), suffixed `.webm`; distinct
0-based indices give distinct index components. -/
theorem question_filename_shape (i : Nat) (q : InterviewQuestion) :
    questionFileName i q =
      "Q" ++ natToDec (i + 1) ++ "_" ++ sanitizePrompt q.prompt ++ ".webm" ∧
    (sanitizePrompt q.prompt).length ≤ 30 ∧
    (∀ c ∈ (sanitizePrompt q.prompt).data, c.isAlphanum = true ∨ c = '_') ∧
    (∀ j : Nat, i ≠ j → natToDec (i + 1) ≠ natToDec (j + 1)) := by
  refine ⟨rfl, ?_, ?_, ?_⟩
  · show ((q.prompt.data.take 30).map sanitizeChar).length ≤ 30
    rw [List.length_map, List.length_take]
    omega
  · intro c hc
    obtain ⟨c0, _, rfl⟩ := List.mem_map.mp hc
    unfold sanitizeChar
    by_cases h : c0.isAlphanum = true <;> simp [h]
  · intro j hne heq
    exact hne (by
      have := natToDec_injective heq
      omega)

/-- Witness for C5 amended at a concrete index and question. -/
theorem question_filename_shape_witness :
    questionFileName 0 qEx1 =
      "Q" ++ natToDec 1 ++ "_" ++ sanitizePrompt qEx1.prompt ++ ".webm" ∧
    natToDec 1 ≠ natToDec 2 :=
  ⟨(question_filename_shape 0 qEx1).1,
   (question_filename_shape 0 qEx1).2.2.2 1 (by decide)⟩

/-- Helper: a failed attempt records the archive POST and the error, then
retries. -/
theorem runAttempts_notOk_cons (m : SubmissionInfo) (a : Blob) (n : Bool)
    (v : VerifyOutcome) (o : AttemptOutcome) (rest : List AttemptOutcome)
    (tr : PipelineTrace) (h : o.isOk = false) :
    runAttempts m a n v (o :: rest) tr =
      runAttempts m a n v rest
        { tr with
          uploadAttempts := tr.uploadAttempts ++ [(m.fileName, a)],
          lastError := attemptErrorMsg o } := by
  cases o with
  | ok u => simp [AttemptOutcome.isOk] at h
  | httpError st tx => rfl
  | thrown msg => rfl

/-- Helper: three failed attempts leave the loop with three recorded
POSTs of the archive bytes and the last error, and nothing else. -/
theorem runAttempts_all_notOk (m : SubmissionInfo) (a : Blob) (n : Bool)
    (v : VerifyOutcome) (o1 o2 o3 : AttemptOutcome) (tr : PipelineTrace)
    (h1 : o1.isOk = false) (h2 : o2.isOk = false) (h3 : o3.isOk = false) :
    runAttempts m a n v [o1, o2, o3] tr =
      { tr with
        uploadAttempts := ((tr.uploadAttempts ++ [(m.fileName, a)])
          ++ [(m.fileName, a)]) ++ [(m.fileName, a)],
        lastError := attemptErrorMsg o3 } := by
  rw [runAttempts_notOk_cons m a n v o1 _ _ h1,
      runAttempts_notOk_cons m a n v o2 _ _ h2,
      runAttempts_notOk_cons m a n v o3 _ _ h3]
  rfl

/-- Helper: the whole upload phase after three failed attempts — the
fallback download of the archive bytes, the failure status and the
failure alert built from the last error. -/
theorem uploadPhase_all_failed (m : SubmissionInfo) (a : Blob) (n : Bool)
    (v : VerifyOutcome) (o1 o2 o3 : AttemptOutcome) (tr : PipelineTrace)
    (h1 : o1.isOk = false) (h2 : o2.isOk = false) (h3 : o3.isOk = false)
    (hu : tr.uploadSuccess = false) (hd : tr.downloads = [])
    (ha : tr.alerts = []) (hup : tr.uploadAttempts = [])
    (msg : String) (hmsg : attemptErrorMsg o3 = some msg) :
    (uploadPhase m a [o1, o2, o3] n v tr).downloads = [(m.fileName, a)] ∧
    (uploadPhase m a [o1, o2, o3] n v tr).uploadAttempts =
      [(m.fileName, a), (m.fileName, a), (m.fileName, a)] ∧
    (uploadPhase m a [o1, o2, o3] n v tr).uploadSuccess = false ∧
    (uploadPhase m a [o1, o2, o3] n v tr).alerts = [failureAlertText m msg] ∧
    "⚠️ Upload failed - File downloaded locally" ∈
      (uploadPhase m a [o1, o2, o3] n v tr).statusLog := by
  have htake : ([o1, o2, o3] : List AttemptOutcome).take 3 = [o1, o2, o3] := rfl
  have hrun := runAttempts_all_notOk m a n v o1 o2 o3 tr h1 h2 h3
  simp only [uploadPhase, htake, hrun]
  simp [hu, hd, ha, hup, hmsg, jsErrorText]

/-- Helper: the failure alert carries the manual-recovery instruction. -/
theorem failureAlert_contains_instruction (m : SubmissionInfo) (err : String) :
    strContains (failureAlertText m err) manualRecoveryInstruction := by
  refine ⟨"⚠️ UPLOAD FAILED BUT FILE SAVED!\n\nFile downloaded: " ++ m.fileName
      ++ "\n\n🚨 CRITICAL: ",
    "\n\n" ++ candidateDetails m ++ "\n\nTechnical Error: " ++ err, ?_⟩
  unfold failureAlertText
  simp [String.append_assoc]

/-- Helper: the failure alert carries the last technical error text. -/
theorem failureAlert_contains_error (m : SubmissionInfo) (err : String) :
    strContains (failureAlertText m err) err := by
  refine ⟨"⚠️ UPLOAD FAILED BUT FILE SAVED!\n\nFile downloaded: " ++ m.fileName
      ++ "\n\n🚨 CRITICAL: " ++ manualRecoveryInstruction ++ "\n\n"
      ++ candidateDetails m ++ "\n\nTechnical Error: ", "", ?_⟩
  unfold failureAlertText
  simp [String.append_assoc]

/-- C1: when all 3 upload attempts fail, the pipeline POSTs the exact
archive bytes three times, performs exactly one local save of those same
bytes, ends with `uploadSuccess = false`, shows exactly one failure alert
that contains the manual-recovery instructions and the last technical
error, and records the failure status — never a silent exit. -/
theorem all_failed_local_fallback (inp : ExportInputs) (o1 o2 o3 : AttemptOutcome)
    (ho : inp.outcomes = [o1, o2, o3])
    (h1 : o1.isOk = false) (h2 : o2.isOk = false) (h3 : o3.isOk = false) :
    ∃ msg : String,
      attemptErrorMsg o3 = some msg ∧
      (exportAndUpload inp).2.downloads =
        [(archiveFileName inp.template inp.candidateName inp.timestamp, inp.zipBytes)] ∧
      (exportAndUpload inp).2.uploadAttempts =
        [(archiveFileName inp.template inp.candidateName inp.timestamp, inp.zipBytes),
         (archiveFileName inp.template inp.candidateName inp.timestamp, inp.zipBytes),
         (archiveFileName inp.template inp.candidateName inp.timestamp, inp.zipBytes)] ∧
      (exportAndUpload inp).2.uploadSuccess = false ∧
      (exportAndUpload inp).2.alerts = [failureAlertText (submissionInfoOf inp) msg] ∧
      strContains (failureAlertText (submissionInfoOf inp) msg)
        manualRecoveryInstruction ∧
      strContains (failureAlertText (submissionInfoOf inp) msg) msg ∧
      "⚠️ Upload failed - File downloaded locally" ∈
        (exportAndUpload inp).2.statusLog := by
  obtain ⟨msg, hmsg⟩ : ∃ mg, attemptErrorMsg o3 = some mg := by
    cases o3 with
    | ok u => simp [AttemptOutcome.isOk] at h3
    | httpError st tx => exact ⟨_, rfl⟩
    | thrown mg => exact ⟨_, rfl⟩
  refine ⟨msg, hmsg, ?_, ?_, ?_, ?_,
    failureAlert_contains_instruction (submissionInfoOf inp) msg,
    failureAlert_contains_error (submissionInfoOf inp) msg, ?_⟩
  · simp only [exportAndUpload]
    rw [ho]
    exact (uploadPhase_all_failed _ _ _ _ o1 o2 o3 _ h1 h2 h3
      rfl rfl rfl rfl msg hmsg).1
  · simp only [exportAndUpload]
    rw [ho]
    exact (uploadPhase_all_failed _ _ _ _ o1 o2 o3 _ h1 h2 h3
      rfl rfl rfl rfl msg hmsg).2.1
  · simp only [exportAndUpload]
    rw [ho]
    exact (uploadPhase_all_failed _ _ _ _ o1 o2 o3 _ h1 h2 h3
      rfl rfl rfl rfl msg hmsg).2.2.1
  · simp only [exportAndUpload]
    rw [ho]
    exact (uploadPhase_all_failed _ _ _ _ o1 o2 o3 _ h1 h2 h3
      rfl rfl rfl rfl msg hmsg).2.2.2.1
  · simp only [exportAndUpload]
    rw [ho]
    exact (uploadPhase_all_failed _ _ _ _ o1 o2 o3 _ h1 h2 h3
      rfl rfl rfl rfl msg hmsg).2.2.2.2

/-- Witness for C1 at a concrete run whose three attempts all fail. -/
theorem all_failed_local_fallback_witness :
    ∃ msg : String,
      attemptErrorMsg (AttemptOutcome.httpError 503 "Unavailable") = some msg ∧
      (exportAndUpload inpFailEx).2.downloads =
        [(archiveFileName inpFailEx.template inpFailEx.candidateName inpFailEx.timestamp,
          inpFailEx.zipBytes)] ∧
      (exportAndUpload inpFailEx).2.uploadAttempts =
        [(archiveFileName inpFailEx.template inpFailEx.candidateName inpFailEx.timestamp,
          inpFailEx.zipBytes),
         (archiveFileName inpFailEx.template inpFailEx.candidateName inpFailEx.timestamp,
          inpFailEx.zipBytes),
         (archiveFileName inpFailEx.template inpFailEx.candidateName inpFailEx.timestamp,
          inpFailEx.zipBytes)] ∧
      (exportAndUpload inpFailEx).2.uploadSuccess = false ∧
      (exportAndUpload inpFailEx).2.alerts =
        [failureAlertText (submissionInfoOf inpFailEx) msg] ∧
      strContains (failureAlertText (submissionInfoOf inpFailEx) msg)
        manualRecoveryInstruction ∧
      strContains (failureAlertText (submissionInfoOf inpFailEx) msg) msg ∧
      "⚠️ Upload failed - File downloaded locally" ∈
        (exportAndUpload inpFailEx).2.statusLog :=
  all_failed_local_fallback inpFailEx (.httpError 500 "Server Error")
    (.thrown "network down") (.httpError 503 "Unavailable") rfl rfl rfl rfl

/-- Helper: the upload loop either succeeds having triggered exactly the
success-path download, or fails having triggered none. -/
theorem runAttempts_downloads_spec (m : SubmissionInfo) (a : Blob) (n : Bool)
    (v : VerifyOutcome) :
    ∀ (os : List AttemptOutcome) (tr : PipelineTrace),
      tr.uploadSuccess = false → tr.downloads = [] →
      ((runAttempts m a n v os tr).uploadSuccess = true ∧
        (runAttempts m a n v os tr).downloads = [(m.fileName, a)]) ∨
      ((runAttempts m a n v os tr).uploadSuccess = false ∧
        (runAttempts m a n v os tr).downloads = []) := by
  intro os
  induction os with
  | nil => intro tr h1 h2; right; exact ⟨h1, h2⟩
  | cons o rest ih =>
      intro tr h1 h2
      cases o with
      | ok u =>
          left
          cases v <;> simp [runAttempts, successEffects, h2]
      | httpError st tx =>
          rw [runAttempts_notOk_cons m a n v (.httpError st tx) rest tr rfl]
          exact ih _ h1 h2
      | thrown mg =>
          rw [runAttempts_notOk_cons m a n v (.thrown mg) rest tr rfl]
          exact ih _ h1 h2

/-- Helper: every upload phase run triggers exactly one local download of
the archive bytes, on the success path or in the fallback. -/
theorem uploadPhase_one_download (m : SubmissionInfo) (a : Blob)
    (os : List AttemptOutcome) (n : Bool) (v : VerifyOutcome) (tr : PipelineTrace)
    (h1 : tr.uploadSuccess = false) (h2 : tr.downloads = []) :
    (uploadPhase m a os n v tr).downloads = [(m.fileName, a)] := by
  rcases runAttempts_downloads_spec m a n v (os.take 3) tr h1 h2 with ⟨hs, hd⟩ | ⟨hs, hd⟩
  · simp [uploadPhase, hs, hd]
  · simp [uploadPhase, hs, hd]

/-- C10: every run of `exportAndUpload` whose upload loop terminates —
some attempt succeeded or all 3 failed — triggers exactly one local
download of the archive bytes for the candidate. -/
theorem every_terminating_run_one_download (inp : ExportInputs)
    (_h : inp.outcomes.length = 3) :
    (exportAndUpload inp).2.downloads =
      [(archiveFileName inp.template inp.candidateName inp.timestamp, inp.zipBytes)] := by
  simp only [exportAndUpload]
  exact uploadPhase_one_download _ _ _ _ _ _ rfl rfl

/-- Witness for C10 at a concrete run whose first attempt succeeds. -/
theorem every_terminating_run_one_download_witness :
    (exportAndUpload inpOkEx).2.downloads =
      [(archiveFileName inpOkEx.template inpOkEx.candidateName inpOkEx.timestamp,
        inpOkEx.zipBytes)] :=
  every_terminating_run_one_download inpOkEx rfl

/-- Helper: the alerts, last error and success flag produced by the
upload loop do not depend on the status log or other fields of the
initial trace. -/
theorem runAttempts_user_visible_congr (m : SubmissionInfo) (a : Blob) (n : Bool)
    (v : VerifyOutcome) :
    ∀ (os : List AttemptOutcome) (tr tr' : PipelineTrace),
      tr.alerts = tr'.alerts → tr.lastError = tr'.lastError →
      tr.uploadSuccess = tr'.uploadSuccess →
      (runAttempts m a n v os tr).alerts = (runAttempts m a n v os tr').alerts ∧
      (runAttempts m a n v os tr).lastError = (runAttempts m a n v os tr').lastError ∧
      (runAttempts m a n v os tr).uploadSuccess =
        (runAttempts m a n v os tr').uploadSuccess := by
  intro os
  induction os with
  | nil => intro tr tr' h1 h2 h3; exact ⟨h1, h2, h3⟩
  | cons o rest ih =>
      intro tr tr' h1 h2 h3
      cases o with
      | ok u =>
          cases v <;> simp [runAttempts, successEffects, h1, h2, h3]
      | httpError st tx =>
          rw [runAttempts_notOk_cons m a n v (.httpError st tx) rest tr rfl,
              runAttempts_notOk_cons m a n v (.httpError st tx) rest tr' rfl]
          exact ih _ _ h1 rfl h3
      | thrown mg =>
          rw [runAttempts_notOk_cons m a n v (.thrown mg) rest tr rfl,
              runAttempts_notOk_cons m a n v (.thrown mg) rest tr' rfl]
          exact ih _ _ h1 rfl h3

/-- Helper: the alerts shown by the whole upload phase do not depend on
the status log of the initial trace. -/
theorem uploadPhase_alerts_congr (m : SubmissionInfo) (a : Blob)
    (os : List AttemptOutcome) (n : Bool) (v : VerifyOutcome)
    (tr tr' : PipelineTrace)
    (h1 : tr.alerts = tr'.alerts) (h2 : tr.lastError = tr'.lastError)
    (h3 : tr.uploadSuccess = tr'.uploadSuccess) :
    (uploadPhase m a os n v tr).alerts = (uploadPhase m a os n v tr').alerts := by
  obtain ⟨g1, g2, g3⟩ :=
    runAttempts_user_visible_congr m a n v (os.take 3) tr tr' h1 h2 h3
  by_cases hs : (runAttempts m a n v (os.take 3) tr).uploadSuccess = true
  · simp only [uploadPhase]
    rw [if_pos hs, if_pos (g3 ▸ hs)]
    exact g1
  · simp only [uploadPhase]
    rw [if_neg hs, if_neg (g3 ▸ hs)]
    simp [g1, g2]

/-- Helper: the upload loop only appends to the status log. -/
theorem runAttempts_status_mem (m : SubmissionInfo) (a : Blob) (n : Bool)
    (v : VerifyOutcome) :
    ∀ (os : List AttemptOutcome) (tr : PipelineTrace) (x : String),
      x ∈ tr.statusLog → x ∈ (runAttempts m a n v os tr).statusLog := by
  intro os
  induction os with
  | nil => intro tr x hx; exact hx
  | cons o rest ih =>
      intro tr x hx
      cases o with
      | ok u =>
          cases v <;> simp [runAttempts, successEffects] <;> exact Or.inl hx
      | httpError st tx =>
          rw [runAttempts_notOk_cons m a n v (.httpError st tx) rest tr rfl]
          exact ih _ x hx
      | thrown mg =>
          rw [runAttempts_notOk_cons m a n v (.thrown mg) rest tr rfl]
          exact ih _ x hx

/-- Helper: the whole upload phase only appends to the status log. -/
theorem uploadPhase_status_mem (m : SubmissionInfo) (a : Blob)
    (os : List AttemptOutcome) (n : Bool) (v : VerifyOutcome)
    (tr : PipelineTrace) (x : String) (hx : x ∈ tr.statusLog) :
    x ∈ (uploadPhase m a os n v tr).statusLog := by
  have hmem := runAttempts_status_mem m a n v (os.take 3) tr x hx
  by_cases hs : (runAttempts m a n v (os.take 3) tr).uploadSuccess = true
  · simp only [uploadPhase]
    rw [if_pos hs]
    exact hmem
  · simp only [uploadPhase]
    rw [if_neg hs]
    simp only [List.mem_append]
    exact Or.inl (Or.inl hmem)

/-- C8: when the merge step fails with more than one answered question,
packaging still completes — the archive holds every per-question clip and
the summary, just no merged file — the merge failure surfaces only as a
progress status, the upload phase still runs, and the alerts the user
sees are identical to those of a run whose merge succeeded. -/
theorem merge_failure_soft (inp : ExportInputs)
    (h : 1 < (videoClips inp.template inp.clips).length)
    (hf : inp.ffmpegResult = none) :
    (exportAndUpload inp).1 =
      perQuestionEntries inp.template inp.clips
        ++ [⟨"interview_summary.json",
            buildSummary inp.template inp.clips inp.candidateName inp.timestamp⟩] ∧
    mergedBlob inp.template inp.clips inp.ffmpegResult = none ∧
    "Video merge failed, packaging individual files..." ∈
      (exportAndUpload inp).2.statusLog ∧
    "Submitting interview..." ∈ (exportAndUpload inp).2.statusLog ∧
    (∀ mb : Blob,
      (exportAndUpload { inp with ffmpegResult := some mb }).2.alerts =
        (exportAndUpload inp).2.alerts) := by
  have hm : mergedBlob inp.template inp.clips inp.ffmpegResult = none := by
    simp only [mergedBlob]
    rw [if_pos h]
    exact hf
  refine ⟨?_, hm, ?_, ?_, ?_⟩
  · simp only [exportAndUpload, buildArchive]
    rw [hm]
    simp
  · simp only [exportAndUpload]
    refine uploadPhase_status_mem _ _ _ _ _ _ _ ?_
    rw [hf, if_pos h]
    simp
  · simp only [exportAndUpload]
    refine uploadPhase_status_mem _ _ _ _ _ _ _ ?_
    rw [hf, if_pos h]
    simp
  · intro mb
    simp only [exportAndUpload]
    exact uploadPhase_alerts_congr _ _ _ _ _ _ _ rfl rfl rfl

/-- Witness for C8 at a concrete two-answer state with a failed merge. -/
theorem merge_failure_soft_witness :
    (exportAndUpload inpMergeFailEx).1 =
      perQuestionEntries inpMergeFailEx.template inpMergeFailEx.clips
        ++ [⟨"interview_summary.json",
            buildSummary inpMergeFailEx.template inpMergeFailEx.clips
              inpMergeFailEx.candidateName inpMergeFailEx.timestamp⟩] ∧
    mergedBlob inpMergeFailEx.template inpMergeFailEx.clips
      inpMergeFailEx.ffmpegResult = none ∧
    "Video merge failed, packaging individual files..." ∈
      (exportAndUpload inpMergeFailEx).2.statusLog ∧
    "Submitting interview..." ∈ (exportAndUpload inpMergeFailEx).2.statusLog ∧
    (exportAndUpload { inpMergeFailEx with ffmpegResult := some [0] }).2.alerts =
      (exportAndUpload inpMergeFailEx).2.alerts := by
  have H := merge_failure_soft inpMergeFailEx (by decide) rfl
  exact ⟨H.1, H.2.1, H.2.2.1, H.2.2.2.1, H.2.2.2.2 [0]⟩

end AIVI
